import Mathlib

/-!
Verification development for the pcshop finance tracker access-control core:
the invite Edge Function (supabase/functions/invite/index.ts) and the
client-side session/capability layer (src/lib/session.tsx and the screens
that derive role booleans from it).
-/

namespace PCShop

/-! ### JavaScript-value helpers

JS string values that may be `undefined`/`null` are modelled as
`Option String`; `jsTruthy` is JS truthiness restricted to such values
(`undefined`, `null` and the empty string are falsy). -/

def jsTruthy : Option String → Bool
  | none => false
  | some s => s != ""

/-- `p.data.isPrefixOf s.data` models `s.startsWith(p)` over the character
sequence (all strings involved are ASCII, so JS code-unit indices and
characters coincide). -/
def strStartsWith (s p : String) : Bool :=
  p.data.isPrefixOf s.data

/-- Models `s.slice(n)` for ASCII strings. -/
def strDrop (s : String) (n : Nat) : String :=
  ⟨s.data.drop n⟩

/-! ### Server side: supabase/functions/invite/index.ts -/

/-- The JSON request body `{ email, fullName, password?, role? }` as
destructured by the function. Absent fields are `none`; JSON values are
modelled as strings. -/
structure ReqBody where
  email : Option String
  fullName : Option String
  role : Option String
  password : Option String
  deriving DecidableEq, Repr

deriving instance DecidableEq for Except

/-- An incoming HTTP request: method, the `Authorization` header
(`none` when absent), and the result of `await req.json()` (`Except.error m`
models a parse failure whose thrown error has message `m`). -/
structure Request where
  method : String
  authHeader : Option String
  body : Except String ReqBody
  deriving DecidableEq, Repr

/-- Server environment: `SUPABASE_URL`, `SERVICE_ROLE_KEY`,
`INVITE_REDIRECT_TO` as read from `Deno.env.get`. -/
structure Env where
  supabaseUrl : Option String
  serviceRoleKey : Option String
  redirectTo : Option String
  deriving DecidableEq, Repr

/-- Outcome of `admin.auth.admin.inviteUserByEmail`: either an error with a
message (`invErr.message`, possibly empty) or success carrying
`invited.user?.id` (which the typed API allows to be absent). -/
inductive InviteResult where
  | err (msg : String)
  | ok (userId : Option String)
  deriving DecidableEq, Repr

/-- Responses of the external collaborators, as consumed by the function:
`getUser jwt` is `me?.user?.id`; `profileOf id` is the `role` column of the
caller row returned by `profiles.select("role").eq("id", id).maybeSingle()`
(`none` when no row exists or the read failed, since the code ignores the
error field); `invite email` is the invite call outcome. -/
structure World where
  getUser : String → Option String
  profileOf : String → Option String
  invite : String → InviteResult

/-- Externally observable calls the function makes, in order. -/
inductive Effect where
  | getUserCall (jwt : String)
  | profileRead (id : String)
  | inviteCall (email : String) (fullName : String) (redirectTo : Option String)
  | profileUpsert (id : String) (fullName : String) (role : String)
  deriving DecidableEq, Repr

/-- Response bodies produced by the function: the plain `"ok"` preflight
text, the success object `\x7bok: true, user_id?\x7d` (`JSON.stringify`
drops the `user_id` key when `newId` is `undefined`, modelled by `none`),
or an error object `\x7berror: msg\x7d`. -/
inductive RespBody where
  | text (s : String)
  | okUser (userId : Option String)
  | err (msg : String)
  deriving DecidableEq, Repr

structure Response where
  status : Nat
  body : RespBody
  deriving DecidableEq, Repr

/-- `const jwt = authHeader.startsWith("Bearer ") ? authHeader.slice(7) : ""`
with `authHeader = req.headers.get("Authorization") ?? ""`. -/
def bearerToken (h : Option String) : String :=
  let a := h.getD ""
  if strStartsWith a "Bearer " then strDrop a 7 else ""

/-- The serve handler of supabase/functions/invite/index.ts, as a function
of the environment, the collaborator responses and the request. Returns
the HTTP response together with the ordered list of external calls made. -/
def handle (env : Env) (w : World) (req : Request) : Response × List Effect :=
  if req.method = "OPTIONS" then (⟨200, .text "ok"⟩, [])
  else if req.method ≠ "POST" then (⟨405, .err "Method not allowed"⟩, [])
  else if ¬ (jsTruthy env.supabaseUrl = true) ∨ ¬ (jsTruthy env.serviceRoleKey = true) then
    (⟨500, .err "Server misconfigured"⟩, [])
  else
    let jwt := bearerToken req.authHeader
    if jwt = "" then (⟨401, .err "Unauthorized"⟩, [])
    else
      let effs1 : List Effect := [.getUserCall jwt]
      match w.getUser jwt with
      | none => (⟨401, .err "Invalid token"⟩, effs1)
      | some callerId =>
        if callerId = "" then (⟨401, .err "Invalid token"⟩, effs1)
        else
          let effs2 := effs1 ++ [.profileRead callerId]
          if w.profileOf callerId ≠ some "admin" then
            (⟨403, .err "Forbidden (admin only)"⟩, effs2)
          else
            match req.body with
            | .error msg =>
              (⟨400, .err (if msg = "" then "Invite failed" else msg)⟩, effs2)
            | .ok b =>
              if ¬ (jsTruthy b.email = true) ∨ ¬ (jsTruthy b.fullName = true) then
                (⟨400, .err "Missing fields"⟩, effs2)
              else
                let email := b.email.getD ""
                let fullName := b.fullName.getD ""
                let redirectArg := if jsTruthy env.redirectTo = true then env.redirectTo else none
                let effs3 := effs2 ++ [.inviteCall email fullName redirectArg]
                match w.invite email with
                | .err msg =>
                  (⟨400, .err (if msg = "" then "Invite failed" else msg)⟩, effs3)
                | .ok uid =>
                  match uid with
                  | some newId =>
                    if newId ≠ "" then
                      (⟨200, .okUser (some newId)⟩,
                       effs3 ++ [.profileUpsert newId fullName (b.role.getD "viewer")])
                    else
                      (⟨200, .okUser (some newId)⟩, effs3)
                  | none => (⟨200, .okUser none⟩, effs3)

/-! ### Client side: src/lib/session.tsx and the role booleans of the screens -/

/-- The closed role enumeration of the client `Profile` type. -/
inductive Role where
  | admin
  | editor
  | viewer
  deriving DecidableEq, Repr

/-- The client `Profile` record (`id`, `full_name`, `role`) as selected by
the session provider. -/
structure Profile where
  id : String
  full_name : Option String
  role : Role
  deriving DecidableEq, Repr

/-- A session as far as the provider consumes it: the authenticated user id. -/
structure Session where
  userId : String
  deriving DecidableEq, Repr

/-- The three state hooks of `SessionProvider`: `session`, `loading`,
`profile`. -/
structure ClientState where
  session : Option Session
  loading : Bool
  profile : Option Profile
  deriving DecidableEq, Repr

/-- Initial hook values: `useState(null)`, `useState(true)`, `useState(null)`. -/
def initialState : ClientState := ⟨none, true, none⟩

/-- Events processed by the provider on the single-threaded UI event loop:
resolution of the initial `getSession()` call, an `onAuthStateChange`
callback, and resolution of a profile lookup issued by the load effect
(`none` when the lookup returned no row or failed, since the code reads
only `data`). -/
inductive ClientEvent where
  | getSessionResolved (s : Option Session)
  | authStateChange (s : Option Session)
  | profileLoaded (d : Option Profile)
  deriving DecidableEq, Repr

/-- One event handler execution of `SessionProvider`:
`getSession().then` sets the session and clears `loading`;
`onAuthStateChange` sets the session and clears the profile only when the
new session is null; a resolved profile load runs `if (data) setProfile(data)`,
leaving the state unchanged when no row came back. -/
def step (st : ClientState) : ClientEvent → ClientState
  | .getSessionResolved s => { st with session := s, loading := false }
  | .authStateChange s =>
      { st with session := s, profile := if s.isNone then none else st.profile }
  | .profileLoaded d =>
      match d with
      | some p => { st with profile := some p }
      | none => st

/-- Discriminates profile-load resolution events. -/
def isProfileLoad : ClientEvent → Bool
  | .profileLoaded _ => true
  | _ => false

/-- `profile?.role` as consumed by the screens. -/
def roleOf (p : Option Profile) : Option Role :=
  p.map Profile.role

/-- The boolean `canWrite`, true when `profile?.role` compares equal to
the admin or the editor literal (Transactions, Bills, Savings screens). -/
def canWrite (r : Option Role) : Bool :=
  r == some .admin || r == some .editor

/-- The boolean `isAdmin`, true when `profile?.role` compares equal to the
admin literal (Root, AuditLog screens; AdminInvite gates on the same
comparison). -/
def isAdmin (r : Option Role) : Bool :=
  r == some .admin

/-! ### Claims about the Provisioning Function -/

/-- Claim C1: every invocation whose caller, as re-derived server-side from
the profiles table, has role `viewer` or `editor` or no Profile row at all,
returns HTTP 403 with error message `Forbidden (admin only)`, and the
external calls made are exactly the identity lookup and the caller profile
read — no invite call and no profile upsert — for every request body,
including bodies that claim an admin role. -/
theorem nonadmin_forbidden (env : Env) (w : World) (req : Request) (callerId : String)
    (hm : req.method = "POST")
    (hu : jsTruthy env.supabaseUrl = true)
    (hk : jsTruthy env.serviceRoleKey = true)
    (hj : bearerToken req.authHeader ≠ "")
    (hg : w.getUser (bearerToken req.authHeader) = some callerId)
    (hc : callerId ≠ "")
    (hr : w.profileOf callerId ≠ some "admin") :
    handle env w req =
      (⟨403, .err "Forbidden (admin only)"⟩,
       [.getUserCall (bearerToken req.authHeader), .profileRead callerId]) := by
  simp [handle, hm, hu, hk, hj, hg, hc, hr]

/-- Concrete instance of `nonadmin_forbidden`: an editor caller sending a
body that requests role admin is rejected with 403 and no invite or upsert
occurs. -/
theorem nonadmin_forbidden_case :
    handle ⟨some "u", some "k", none⟩
      ⟨fun _ => some "caller1", fun _ => some "editor", fun _ => .err ""⟩
      ⟨"POST", some "Bearer tok1", .ok ⟨some "e@x.com", some "Eve", some "admin", none⟩⟩ =
      (⟨403, .err "Forbidden (admin only)"⟩, [.getUserCall "tok1", .profileRead "caller1"]) :=
  nonadmin_forbidden _ _ _ "caller1" rfl rfl rfl (by decide) rfl (by decide) (by decide)

/-- Claim C2: every POST invocation (with the required configuration
present) whose `Authorization` header is missing or malformed — i.e. the
extracted bearer token is empty — returns HTTP 401 `Unauthorized` with an
empty external-call trace: no identity lookup, no invite call and no
storage access happens. -/
theorem missing_bearer_unauthorized (env : Env) (w : World) (req : Request)
    (hm : req.method = "POST")
    (hu : jsTruthy env.supabaseUrl = true)
    (hk : jsTruthy env.serviceRoleKey = true)
    (hj : bearerToken req.authHeader = "") :
    handle env w req = (⟨401, .err "Unauthorized"⟩, []) := by
  simp [handle, hm, hu, hk, hj]

/-- Concrete instance of `missing_bearer_unauthorized`: a lowercase
`bearer` scheme does not parse as a bearer token and yields 401 with no
external calls. -/
theorem missing_bearer_unauthorized_case :
    handle ⟨some "u", some "k", none⟩
      ⟨fun _ => some "caller1", fun _ => some "admin", fun _ => .err ""⟩
      ⟨"POST", some "bearer tok1", .ok ⟨some "e@x.com", some "Eve", none, none⟩⟩ =
      (⟨401, .err "Unauthorized"⟩, []) :=
  missing_bearer_unauthorized _ _ _ rfl rfl rfl (by decide)

/-! ### Claims about the client capability layer -/

/-- Claim C6: for every role value (including null, i.e. no Profile), the
derived booleans consumed by the privileged screens satisfy: `canWrite` is
true exactly when the role is admin or editor, and `isAdmin` is true
exactly when the role is admin; a null role yields both false. -/
theorem derived_capability_booleans (r : Option Role) :
    (canWrite r = true ↔ (r = some .admin ∨ r = some .editor)) ∧
    (isAdmin r = true ↔ r = some .admin) := by
  cases r with
  | none => simp [canWrite, isAdmin]
  | some r => cases r <;> simp [canWrite, isAdmin]

/-- Replaces the `password` field of a parsed body, leaving a parse
failure unchanged. -/
def setPassword : Except String ReqBody → Option String → Except String ReqBody
  | .error m, _ => .error m
  | .ok b, p => .ok { b with password := p }

/-- Claim C10: two invocations identical except for the `password` field of
the JSON body produce the same response and the same external-call trace:
the function never reads the password, so it cannot influence the outcome. -/
theorem password_noninterference (env : Env) (w : World) (m : String)
    (ah : Option String) (b : Except String ReqBody) (p1 p2 : Option String) :
    handle env w ⟨m, ah, setPassword b p1⟩ = handle env w ⟨m, ah, setPassword b p2⟩ := by
  cases b with
  | error msg => rfl
  | ok b => rfl

/-- Profile stays cleared across events that are not profile-load
resolutions. -/
theorem profile_none_preserved (evs : List ClientEvent) (st : ClientState)
    (hp : st.profile = none)
    (h : evs.all (fun e => !isProfileLoad e) = true) :
    (evs.foldl step st).profile = none := by
  induction evs generalizing st with
  | nil => simpa using hp
  | cons e evs ih =>
    rw [List.all_cons] at h
    have h1 := (Bool.and_eq_true _ _).mp h
    refine ih (step st e) ?_ h1.2
    cases e with
    | getSessionResolved s => simpa [step] using hp
    | authStateChange s => cases s <;> simp [step, hp]
    | profileLoaded d => simp [isProfileLoad] at h1

/-- Claim C7: from any provider state, processing a session-cleared event
(`onAuthStateChange` with a null session) immediately sets the cached
profile to null, and it stays null across any further events up to the
next profile-load resolution, so every capability check in that interval
sees the most restrictive state: `canWrite` and `isAdmin` are both false. -/
theorem signout_clears_profile (st : ClientState) (evs : List ClientEvent)
    (h : evs.all (fun e => !isProfileLoad e) = true) :
    (evs.foldl step (step st (.authStateChange none))).profile = none ∧
    canWrite (roleOf (evs.foldl step (step st (.authStateChange none))).profile) = false ∧
    isAdmin (roleOf (evs.foldl step (step st (.authStateChange none))).profile) = false := by
  have hp : (step st (.authStateChange none)).profile = none := by simp [step]
  have hres := profile_none_preserved evs _ hp h
  refine ⟨hres, ?_, ?_⟩ <;> simp [hres, roleOf, canWrite, isAdmin]

/-- Concrete instance of `signout_clears_profile`: after an admin profile
was resolved, a sign-out followed by a new sign-in (before the new profile
load resolves) leaves profile null and both capability booleans false. -/
theorem signout_clears_profile_case :
    ([ClientEvent.authStateChange (some ⟨"B"⟩),
      ClientEvent.getSessionResolved (some ⟨"B"⟩)].foldl step
        (step ⟨some ⟨"A"⟩, false, some ⟨"A", some "Alice", Role.admin⟩⟩
          (.authStateChange none))).profile = none ∧
    canWrite (roleOf ([ClientEvent.authStateChange (some ⟨"B"⟩),
      ClientEvent.getSessionResolved (some ⟨"B"⟩)].foldl step
        (step ⟨some ⟨"A"⟩, false, some ⟨"A", some "Alice", Role.admin⟩⟩
          (.authStateChange none))).profile) = false ∧
    isAdmin (roleOf ([ClientEvent.authStateChange (some ⟨"B"⟩),
      ClientEvent.getSessionResolved (some ⟨"B"⟩)].foldl step
        (step ⟨some ⟨"A"⟩, false, some ⟨"A", some "Alice", Role.admin⟩⟩
          (.authStateChange none))).profile) = false :=
  signout_clears_profile ⟨some ⟨"A"⟩, false, some ⟨"A", some "Alice", Role.admin⟩⟩
    [ClientEvent.authStateChange (some ⟨"B"⟩), ClientEvent.getSessionResolved (some ⟨"B"⟩)]
    (by decide)

/-- Counterexample to claim C8 as stated: session A resolves an admin
profile; the session is then replaced directly by session B (no null
session in between, so line 26 of session.tsx never clears the profile);
the profile lookup for B returns no row, and `if (data)` skips the update.
The exposed state still holds the elevated profile of A and `isAdmin` is
true — not the most restrictive state the claim requires. -/
theorem stale_profile_on_session_swap :
    (([ClientEvent.authStateChange (some ⟨"A"⟩),
       ClientEvent.profileLoaded (some ⟨"A", some "Alice", Role.admin⟩),
       ClientEvent.authStateChange (some ⟨"B"⟩),
       ClientEvent.profileLoaded none].foldl step initialState).profile
        = some ⟨"A", some "Alice", Role.admin⟩) ∧
    isAdmin (roleOf (([ClientEvent.authStateChange (some ⟨"A"⟩),
       ClientEvent.profileLoaded (some ⟨"A", some "Alice", Role.admin⟩),
       ClientEvent.authStateChange (some ⟨"B"⟩),
       ClientEvent.profileLoaded none].foldl step initialState).profile)) = true := by
  decide

/-- Claim C8 as amended: when the profile cache was cleared before the new
session was established (the previous auth transition was a sign-out, or
the state is the initial one), a profile lookup that returns no row or
fails leaves the most restrictive state: profile null, `canWrite` and
`isAdmin` false. When a session is instead replaced without an intervening
cleared session, the previously resolved profile remains exposed (see the
counterexample). -/
theorem failed_lookup_after_signout_restrictive (st : ClientState) (s : Session) :
    ((step (step (step st (.authStateChange none)) (.authStateChange (some s)))
        (.profileLoaded none)).profile = none) ∧
    canWrite (roleOf (step (step (step st (.authStateChange none))
        (.authStateChange (some s))) (.profileLoaded none)).profile) = false ∧
    isAdmin (roleOf (step (step (step st (.authStateChange none))
        (.authStateChange (some s))) (.profileLoaded none)).profile) = false :=
  ⟨rfl, rfl, rfl⟩

/-- Discriminates profile-upsert effects. -/
def isUpsert : Effect → Bool
  | .profileUpsert _ _ _ => true
  | _ => false

/-- Counterexample to claim C5 as stated: a POST by a valid admin caller
whose body is missing `email` is rejected with 400 `Missing fields`, but
the external-call trace is not empty — the identity lookup and the caller
profile read have already happened, because the function parses and
validates the body only after the admin check. -/
theorem validation_after_auth_lookups :
    handle ⟨some "u", some "k", none⟩
      ⟨fun _ => some "caller1", fun _ => some "admin", fun _ => .err ""⟩
      ⟨"POST", some "Bearer tok1", .ok ⟨none, some "Xena", none, none⟩⟩ =
      (⟨400, .err "Missing fields"⟩, [.getUserCall "tok1", .profileRead "caller1"]) ∧
    Effect.getUserCall "tok1" ∈
      (handle ⟨some "u", some "k", none⟩
        ⟨fun _ => some "caller1", fun _ => some "admin", fun _ => .err ""⟩
        ⟨"POST", some "Bearer tok1", .ok ⟨none, some "Xena", none, none⟩⟩).2 := by
  decide

/-- Claim C5 as amended: a missing or empty `email` or `fullName` field in
an otherwise authorized invocation yields 400 `Missing fields` before the
invite call and before the upsert (neither occurs), but after the identity
lookup and the caller profile read, which are the only external calls in
the trace. -/
theorem invalid_input_no_invite_no_upsert (env : Env) (w : World) (req : Request)
    (callerId : String) (b : ReqBody)
    (hm : req.method = "POST")
    (hu : jsTruthy env.supabaseUrl = true)
    (hk : jsTruthy env.serviceRoleKey = true)
    (hj : bearerToken req.authHeader ≠ "")
    (hg : w.getUser (bearerToken req.authHeader) = some callerId)
    (hc : callerId ≠ "")
    (hr : w.profileOf callerId = some "admin")
    (hb : req.body = .ok b)
    (hv : ¬ (jsTruthy b.email = true) ∨ ¬ (jsTruthy b.fullName = true)) :
    handle env w req =
      (⟨400, .err "Missing fields"⟩,
       [.getUserCall (bearerToken req.authHeader), .profileRead callerId]) := by
  simp [handle, hm, hu, hk, hj, hg, hc, hr, hb]
  intro h1 h2
  cases hv with
  | inl h => exact absurd h1 h
  | inr h => exact absurd h2 h

/-- Concrete instance of `invalid_input_no_invite_no_upsert`. -/
theorem invalid_input_no_invite_no_upsert_case :
    handle ⟨some "u", some "k", none⟩
      ⟨fun _ => some "caller1", fun _ => some "admin", fun _ => .err ""⟩
      ⟨"POST", some "Bearer tok1", .ok ⟨some "n@s.com", some "", none, none⟩⟩ =
      (⟨400, .err "Missing fields"⟩, [.getUserCall "tok1", .profileRead "caller1"]) :=
  invalid_input_no_invite_no_upsert _ _ _ "caller1" ⟨some "n@s.com", some "", none, none⟩
    rfl rfl rfl (by decide) rfl (by decide) rfl rfl (by decide)

/-- Counterexample to claim C3 as stated: an admin invocation requesting
role `superadmin` — not one of the three valid values, so the claim says
the upserted role must be `viewer` — upserts `superadmin` verbatim: the
`?? "viewer"` default only applies to an absent role, and the TypeScript
cast performs no runtime validation. -/
theorem invalid_role_passthrough :
    handle ⟨some "u", some "k", none⟩
      ⟨fun _ => some "caller1", fun _ => some "admin", fun _ => .ok (some "u2")⟩
      ⟨"POST", some "Bearer tok1", .ok ⟨some "n@s.com", some "Xena", some "superadmin", none⟩⟩ =
      (⟨200, .okUser (some "u2")⟩,
       [.getUserCall "tok1", .profileRead "caller1",
        .inviteCall "n@s.com" "Xena" none,
        .profileUpsert "u2" "Xena" "superadmin"]) ∧
    Effect.profileUpsert "u2" "Xena" "viewer" ∉
      (handle ⟨some "u", some "k", none⟩
        ⟨fun _ => some "caller1", fun _ => some "admin", fun _ => .ok (some "u2")⟩
        ⟨"POST", some "Bearer tok1",
         .ok ⟨some "n@s.com", some "Xena", some "superadmin", none⟩⟩).2 := by
  decide

/-- Claim C3 as amended: on the successful path of an admin invocation,
the upserted role is the requested role whenever the `role` field is
present — any string value passes through unvalidated, including values
outside the three valid roles — and is `viewer` exactly when the field is
absent; the role is never otherwise changed. -/
theorem upsert_role_requested_or_default (env : Env) (w : World) (req : Request)
    (callerId uid : String) (b : ReqBody)
    (hm : req.method = "POST")
    (hu : jsTruthy env.supabaseUrl = true)
    (hk : jsTruthy env.serviceRoleKey = true)
    (hj : bearerToken req.authHeader ≠ "")
    (hg : w.getUser (bearerToken req.authHeader) = some callerId)
    (hc : callerId ≠ "")
    (hr : w.profileOf callerId = some "admin")
    (hb : req.body = .ok b)
    (he : jsTruthy b.email = true)
    (hf : jsTruthy b.fullName = true)
    (hi : w.invite (b.email.getD "") = .ok (some uid))
    (hid : uid ≠ "") :
    handle env w req =
      (⟨200, .okUser (some uid)⟩,
       [.getUserCall (bearerToken req.authHeader), .profileRead callerId,
        .inviteCall (b.email.getD "") (b.fullName.getD "")
          (if jsTruthy env.redirectTo = true then env.redirectTo else none),
        .profileUpsert uid (b.fullName.getD "") (b.role.getD "viewer")]) := by
  simp [handle, hm, hu, hk, hj, hg, hc, hr, hb, he, hf, hi, hid]

/-- Concrete instance of `upsert_role_requested_or_default`: requested
role `editor` is upserted exactly; with the role field absent, the same
invocation would upsert `viewer`. -/
theorem upsert_role_requested_or_default_case :
    handle ⟨some "u", some "k", none⟩
      ⟨fun _ => some "caller1", fun _ => some "admin", fun _ => .ok (some "u2")⟩
      ⟨"POST", some "Bearer tok1", .ok ⟨some "n@s.com", some "Xena", some "editor", none⟩⟩ =
      (⟨200, .okUser (some "u2")⟩,
       [.getUserCall "tok1", .profileRead "caller1",
        .inviteCall "n@s.com" "Xena" none,
        .profileUpsert "u2" "Xena" "editor"]) :=
  upsert_role_requested_or_default _ _ _ "caller1" "u2"
    ⟨some "n@s.com", some "Xena", some "editor", none⟩
    rfl rfl rfl (by decide) rfl (by decide) rfl rfl rfl rfl rfl (by decide)

/-- Counterexample to claim C9 as stated: when the invite call succeeds
but the collaborator response carries no user object (`invited.user?.id`
is `undefined`, a case line 58 of the function explicitly guards for),
the function still returns HTTP 200 but the body has no `user_id` key
(`JSON.stringify` drops an `undefined` value) and no profile upsert is
attempted. -/
theorem success_without_user_id :
    handle ⟨some "u", some "k", none⟩
      ⟨fun _ => some "caller1", fun _ => some "admin", fun _ => .ok none⟩
      ⟨"POST", some "Bearer tok1", .ok ⟨some "n@s.com", some "Xena", some "editor", none⟩⟩ =
      (⟨200, .okUser none⟩,
       [.getUserCall "tok1", .profileRead "caller1", .inviteCall "n@s.com" "Xena" none]) ∧
    ((handle ⟨some "u", some "k", none⟩
        ⟨fun _ => some "caller1", fun _ => some "admin", fun _ => .ok none⟩
        ⟨"POST", some "Bearer tok1",
         .ok ⟨some "n@s.com", some "Xena", some "editor", none⟩⟩).2.all
      (fun e => !isUpsert e) = true) := by
  decide

/-- Claim C9 as amended: whenever the invite call succeeds and yields a
non-empty user identifier, the function returns HTTP 200 with body
ok true and that identifier as `user_id`, and a profile upsert for that
identifier (with the requested display name and role) is attempted. When
the collaborator returns success without a user identifier, the 200
response carries no `user_id` and no upsert occurs (see the
counterexample). -/
theorem success_with_id_response_and_upsert (env : Env) (w : World) (req : Request)
    (callerId uid : String) (b : ReqBody)
    (hm : req.method = "POST")
    (hu : jsTruthy env.supabaseUrl = true)
    (hk : jsTruthy env.serviceRoleKey = true)
    (hj : bearerToken req.authHeader ≠ "")
    (hg : w.getUser (bearerToken req.authHeader) = some callerId)
    (hc : callerId ≠ "")
    (hr : w.profileOf callerId = some "admin")
    (hb : req.body = .ok b)
    (he : jsTruthy b.email = true)
    (hf : jsTruthy b.fullName = true)
    (hi : w.invite (b.email.getD "") = .ok (some uid))
    (hid : uid ≠ "") :
    (handle env w req).1 = ⟨200, .okUser (some uid)⟩ ∧
    Effect.profileUpsert uid (b.fullName.getD "") (b.role.getD "viewer")
      ∈ (handle env w req).2 := by
  simp [handle, hm, hu, hk, hj, hg, hc, hr, hb, he, hf, hi, hid]

/-- Concrete instance of `success_with_id_response_and_upsert`. -/
theorem success_with_id_response_and_upsert_case :
    (handle ⟨some "u", some "k", none⟩
      ⟨fun _ => some "caller1", fun _ => some "admin", fun _ => .ok (some "u2")⟩
      ⟨"POST", some "Bearer tok1",
       .ok ⟨some "n@s.com", some "Xena", some "editor", none⟩⟩).1 =
      ⟨200, .okUser (some "u2")⟩ ∧
    Effect.profileUpsert "u2" "Xena" "editor" ∈
      (handle ⟨some "u", some "k", none⟩
        ⟨fun _ => some "caller1", fun _ => some "admin", fun _ => .ok (some "u2")⟩
        ⟨"POST", some "Bearer tok1",
         .ok ⟨some "n@s.com", some "Xena", some "editor", none⟩⟩).2 :=
  success_with_id_response_and_upsert _ _ _ "caller1" "u2"
    ⟨some "n@s.com", some "Xena", some "editor", none⟩
    rfl rfl rfl (by decide) rfl (by decide) rfl rfl rfl rfl rfl (by decide)

end PCShop
